import Mathlib

/-!
Shallow embedding of the geospatial session coordinator found in
`src/unnamed/part_000` (the main `App` component: entity state, selection,
drawing mode, route coordination with stale-response discarding, and the
peer-movement simulation) together with the single-route variant
`src/src/App.tsx` (its `fetchRoute` helper).

Coordinates are decimal literals compared only for equality in the source,
so they are embedded as exact rationals (written with `mkRat` so that the
kernel can evaluate them).  React state hooks become fields of an explicit
`AppState`; each event handler becomes a function `AppState → … → AppState`.
The `useEffect` keyed on `waypoints` is modelled by `routeEffect`, composed
after every handler that calls `setWaypoints` (every such call produces a
fresh array, so the effect re-runs, running the previous effect instance's
cleanup first).  The per-effect `isMounted` closure flag is modelled by a
generation counter `gen`: each effect run gets a fresh generation, and a
response callback fires its state updates exactly when its generation is
still the current one (the cleanup of a superseded effect having set
`isMounted = false`).  `inflight` records the generations whose network
request has not yet resolved.
-/

namespace BoostGeo

/-- A `{ longitude, latitude }` record (the `location` field of a friend). -/
structure Location where
  longitude : Rat
  latitude : Rat
deriving DecidableEq

/-- A `{ lng, lat }` record (the shape of the `selection` state). -/
structure LngLat where
  lng : Rat
  lat : Rat
deriving DecidableEq

/-- `interface Blip { id; longitude; latitude; text }`. -/
structure Blip where
  id : Int
  longitude : Rat
  latitude : Rat
  text : String
deriving DecidableEq

/-- `interface RouteData { coordinates; duration; distance }`. -/
structure RouteData where
  coordinates : List (Rat × Rat)
  duration : Rat
  distance : Rat
deriving DecidableEq

/-- `interface Friend { id; name; avatar; status; lastMessage; unread; location }`. -/
structure Friend where
  id : Int
  name : String
  avatar : String
  status : String
  lastMessage : String
  unread : Int
  location : Location
deriving DecidableEq

/-- The `{ index, lng, lat }` record stored in the `selectedWaypoint` state. -/
structure SelectedWaypoint where
  index : Nat
  lng : Rat
  lat : Rat
deriving DecidableEq

/-- The `initialFriends` mock data: Alice (id 1, online, at `(-122.41, 37.78)`)
and Bob (id 2, offline, at `(-122.42, 37.79)`). -/
def initialFriends : List Friend :=
  [ { id := 1, name := "Alice", avatar := "https://i.pravatar.cc/150?u=a042581f4e29026704d",
      status := "online", lastMessage := "See you on the map!", unread := 2,
      location := { longitude := mkRat (-12241) 100, latitude := mkRat 3778 100 } },
    { id := 2, name := "Bob", avatar := "https://i.pravatar.cc/150?u=a042581f4e29026704e",
      status := "offline", lastMessage := "Let\x27s catch up later.", unread := 0,
      location := { longitude := mkRat (-12242) 100, latitude := mkRat 3779 100 } } ]

/-- The fixed cyclic path Alice moves along (`alicePath`).  Note that the
last vertex repeats the first one, so the path of length 7 visits only six
distinct coordinates. -/
def alicePath : List (Rat × Rat) :=
  [ (mkRat (-12241) 100, mkRat 3778 100), (mkRat (-122415) 1000, mkRat 37782 1000),
    (mkRat (-12242) 100, mkRat 37785 1000), (mkRat (-122425) 1000, mkRat 37782 1000),
    (mkRat (-12242) 100, mkRat 3778 100), (mkRat (-122415) 1000, mkRat 37778 1000),
    (mkRat (-12241) 100, mkRat 3778 100) ]

/-- The initial `blips` state. -/
def initialBlips : List Blip :=
  [ { id := 1, longitude := mkRat (-12245) 100, latitude := mkRat 3777 100, text := "Cool graffiti" } ]

/-- The session state: one field per `useState` hook of `App` that belongs to
the session coordinator (the purely presentational `isSidebarOpen` and `is3D`
flags are omitted), plus the generation bookkeeping (`gen`, `inflight`) that
models the per-effect `isMounted` cleanup flags of the route-fetch effect. -/
structure AppState where
  friends : List Friend
  blips : List Blip
  waypoints : List (Rat × Rat)
  routes : List RouteData
  selectedRouteIndex : Nat
  isLoadingRoute : Bool
  selection : Option LngLat
  selectedWaypoint : Option SelectedWaypoint
  selectedBlip : Option Blip
  userLocation : Option (Rat × Rat)
  isDrawing : Bool
  drawnPolygon : List (Rat × Rat)
  gen : Nat
  inflight : List Nat
deriving DecidableEq

/-- The initial session state of `App`. -/
def initState : AppState :=
  { friends := initialFriends, blips := initialBlips, waypoints := [], routes := [],
    selectedRouteIndex := 0, isLoadingRoute := false, selection := none,
    selectedWaypoint := none, selectedBlip := none, userLocation := none,
    isDrawing := false, drawnPolygon := [], gen := 0, inflight := [] }

/-- The route-fetch `useEffect` keyed on `waypoints`.  Re-running it first
runs the previous instance's cleanup (`isMounted = false`), modelled by
bumping `gen`.  Body: if fewer than two waypoints, `setRoutes([])` and
return (nothing else changes); otherwise `setIsLoadingRoute(true)` and a
request tagged with the fresh generation goes in flight. -/
def routeEffect (st : AppState) : AppState :=
  if st.waypoints.length < 2 then
    { st with gen := st.gen + 1, routes := [] }
  else
    { st with
      gen := st.gen + 1, isLoadingRoute := true,
      inflight := st.inflight ++ [st.gen + 1] }

/-- A `setWaypoints` call followed by the effect re-run it triggers (every
`setWaypoints` in the source passes a fresh array, so the effect always
re-runs). -/
def setWaypointsTo (wps : List (Rat × Rat)) (st : AppState) : AppState :=
  routeEffect { st with waypoints := wps }

/-- The `.then` callback of `fetchRoutes(waypoints)` inside the effect:
`if (isMounted) { setRoutes(d); setSelectedRouteIndex(0); setIsLoadingRoute(false); }`.
`g` is the generation of the effect instance that issued the request;
`isMounted` is true exactly when `g` is still the current generation.
Either way the promise has resolved, so `g` leaves the in-flight set. -/
def applyRouteResponse (st : AppState) (g : Nat) (d : List RouteData) : AppState :=
  if g = st.gen then
    { st with
      routes := d, selectedRouteIndex := 0, isLoadingRoute := false,
      inflight := st.inflight.erase g }
  else
    { st with inflight := st.inflight.erase g }

/-- `handleMapClick`: while drawing, append the click to `drawnPolygon` and
return; otherwise ignore clicks landing on a marker element; otherwise set
the point selection and clear the waypoint and blip selections. -/
def handleMapClick (st : AppState) (lng lat : Rat) (hitMarker : Bool) : AppState :=
  if st.isDrawing then
    { st with drawnPolygon := st.drawnPolygon ++ [(lng, lat)] }
  else if hitMarker then st
  else
    { st with selection := some ⟨lng, lat⟩, selectedWaypoint := none, selectedBlip := none }

/-- The blip marker `onClick` handler: `setSelectedBlip(b)`. -/
def blipMarkerClick (st : AppState) (b : Blip) : AppState :=
  { st with selectedBlip := some b }

/-- The waypoint marker `onClick` handler:
`setSelectedWaypoint({ index: i, lng: wp[0], lat: wp[1] })`. -/
def waypointMarkerClick (st : AppState) (i : Nat) (lng lat : Rat) : AppState :=
  { st with selectedWaypoint := some ⟨i, lng, lat⟩ }

/-- `addWaypoint`: if a point selection exists, append it to the waypoint
sequence (triggering the route effect) and clear the selection. -/
def addWaypoint (st : AppState) : AppState :=
  match st.selection with
  | none => st
  | some s => setWaypointsTo (st.waypoints ++ [(s.lng, s.lat)]) { st with selection := none }

/-- `deleteWaypoint(i)`: `setWaypoints(p => p.filter((_, idx) => idx !== i))`
followed by `setSelectedWaypoint(null)`; the waypoint change re-runs the
route effect. -/
def deleteWaypoint (st : AppState) (i : Nat) : AppState :=
  setWaypointsTo (((st.waypoints.enum).filter (fun p => p.1 != i)).map Prod.snd)
    { st with selectedWaypoint := none }

/-- `toggleDrawing`: flip `isDrawing`; when switching Off → On, clear
`drawnPolygon` and `waypoints` (the latter re-running the route effect);
when switching On → Off, touch nothing else. -/
def toggleDrawing (st : AppState) : AppState :=
  if st.isDrawing then
    { st with isDrawing := false }
  else
    setWaypointsTo [] { st with isDrawing := true, drawnPolygon := [] }

/-- A click on one of the per-route buttons or polylines:
`setSelectedRouteIndex(i)`.  The UI renders such a control only for each
index of the current `routes` list. -/
def selectRouteClick (st : AppState) (i : Nat) : AppState :=
  { st with selectedRouteIndex := i }

/-- The observable outcome of one HTTP round trip of the routing service:
the `fetch` call throws, or the response arrives with a non-success status,
or it parses and its `routes` field is absent (`none`) or holds a list. -/
inductive FetchOutcome where
  | netError : FetchOutcome
  | httpError (status : Nat) : FetchOutcome
  | ok (routesField : Option (List RouteData)) : FetchOutcome
deriving DecidableEq

/-- The failure cases enumerated by the spec: network error, non-success
HTTP status, absent routes field, or an empty routes list. -/
def FetchOutcome.isFailure : FetchOutcome → Bool
  | .netError => true
  | .httpError _ => true
  | .ok none => true
  | .ok (some rs) => rs.isEmpty

/-- `fetchRoutes` of `src/unnamed/part_000`: returns `[]` for fewer than two
waypoints without issuing a request; a thrown fetch error or a non-`ok`
status (which throws into the same `catch`) yields `[]`; an absent `routes`
field yields `[]` via `data.routes?.map(...) || []`; otherwise the mapped
route list is returned. -/
def fetchRoutes (waypoints : List (Rat × Rat)) (outcome : FetchOutcome) : List RouteData :=
  if waypoints.length < 2 then []
  else
    match outcome with
    | .netError => []
    | .httpError _ => []
    | .ok none => []
    | .ok (some rs) => rs

/-- `fetchRoute` of `src/src/App.tsx`: returns `[]` for fewer than two
waypoints; on a thrown fetch error or a non-`ok` status (which throws into
the `catch`) it falls back to the waypoints themselves (a straight line);
with no routes in the response it returns `[]`; otherwise the first route's
geometry. -/
def fetchRoute (waypoints : List (Rat × Rat)) (outcome : FetchOutcome) : List (Rat × Rat) :=
  if waypoints.length < 2 then []
  else
    match outcome with
    | .netError => waypoints
    | .httpError _ => waypoints
    | .ok none => []
    | .ok (some []) => []
    | .ok (some (r :: _)) => r.coordinates

/-- JavaScript `Array.prototype.findIndex`: first matching index, `-1` when
no element matches. -/
def findIndexJS (p : α → Bool) (l : List α) : Int :=
  match l.findIdx? p with
  | some i => (i : Int)
  | none => -1

/-- One tick of the simulation interval: find Alice (`id === 1`), recover
her current path index by coordinate search in `alicePath`, advance it by
one modulo the path length, and give every friend with id 1 the new
location; all other friends are passed through unchanged. -/
def tickFriends (fs : List Friend) : List Friend :=
  match fs.find? (fun f => f.id == 1) with
  | none => fs
  | some alice =>
    let currentIndex := findIndexJS
      (fun p => p.1 == alice.location.longitude && p.2 == alice.location.latitude) alicePath
    let nextIndex := ((currentIndex + 1) % (alicePath.length : Int)).toNat
    let nextLocation : Location :=
      { longitude := (alicePath.getD nextIndex (0, 0)).1,
        latitude := (alicePath.getD nextIndex (0, 0)).2 }
    fs.map (fun f => if f.id == 1 then { f with location := nextLocation } else f)

/-- `N` consecutive simulation ticks. -/
def tickN : Nat → List Friend → List Friend
  | 0, fs => fs
  | n + 1, fs => tickN n (tickFriends fs)

/-- The tick effect on the whole session state: only `setFriends` is called. -/
def tickSim (st : AppState) : AppState :=
  { st with friends := tickFriends st.friends }

/-- Alice's current coordinate: the location of the first friend with id 1. -/
def aliceLoc (fs : List Friend) : Option Location :=
  (fs.find? (fun f => f.id == 1)).map (fun f => f.location)

/-- The coordinate stored at position `i` of `alicePath`, as a `Location`. -/
def pathLoc (i : Nat) : Location :=
  ⟨(alicePath.getD i (0, 0)).1, (alicePath.getD i (0, 0)).2⟩

/-- The location-to-location step function the tick applies to Alice. -/
def stepLoc (loc : Location) : Location :=
  let currentIndex := findIndexJS
    (fun p => p.1 == loc.longitude && p.2 == loc.latitude) alicePath
  let nextIndex := ((currentIndex + 1) % (alicePath.length : Int)).toNat
  pathLoc nextIndex

/-- Sample coordinates and routes used by witnesses and counterexamples
(the first two match the spec's scenario 1). -/
def wpA : Rat × Rat := (mkRat (-12241) 100, mkRat 3778 100)

def wpB : Rat × Rat := (mkRat (-12242) 100, mkRat 3779 100)

def wpC : Rat × Rat := (mkRat (-12243) 100, mkRat 3780 100)

def demoRoute : RouteData := { coordinates := [wpA, wpB], duration := 600, distance := 5000 }

def demoRoute2 : RouteData := { coordinates := [wpA, wpC, wpB], duration := 700, distance := 6000 }

def demoRoute3 : RouteData := { coordinates := [wpB, wpA], duration := 800, distance := 7000 }

end BoostGeo

namespace BoostGeo

/-! ### Helper lemmas -/

/-- `filter (idx ≠ k)` keeps everything when all enumerated indices start
above `k`. -/
lemma enumFrom_filter_bne_of_lt (l : List α) (k : Nat) :
    ∀ m, k < m → (List.enumFrom m l).filter (fun p => p.1 != k) = List.enumFrom m l := by
  induction l with
  | nil => intro m _; rfl
  | cons a t ih =>
    intro m hk
    have hne : (m != k) = true := by
      simp only [bne_iff_ne, ne_eq]
      omega
    simp only [List.enumFrom, List.filter_cons, hne, if_pos]
    rw [ih (m + 1) (by omega)]

/-- The functional core of `Array.prototype.filter((_, idx) => idx !== i)`
starting the enumeration at `n`: it erases position `i`. -/
lemma enumFrom_filter_bne_map_snd (l : List α) :
    ∀ n i, ((List.enumFrom n l).filter (fun p => p.1 != n + i)).map Prod.snd = l.eraseIdx i := by
  induction l with
  | nil => intro n i; rfl
  | cons a t ih =>
    intro n i
    cases i with
    | zero =>
      have h0 : (n != n) = false := by simp
      simp only [Nat.add_zero, List.enumFrom, List.filter_cons, h0, if_neg,
        Bool.false_eq_true, not_false_iff, List.eraseIdx]
      rw [enumFrom_filter_bne_of_lt t n (n + 1) (by omega), List.enumFrom_map_snd]
    | succ j =>
      have h1 : (n != n + (j + 1)) = true := by
        simp only [bne_iff_ne, ne_eq]
        omega
      simp only [List.enumFrom, List.filter_cons, h1, if_pos, List.map_cons, List.eraseIdx]
      rw [show n + (j + 1) = (n + 1) + j by omega, ih (n + 1) j]

/-- `p.filter((_, idx) => idx !== i)` erases position `i`. -/
lemma enum_filter_bne_map_snd (l : List α) (i : Nat) :
    ((l.enum).filter (fun p => p.1 != i)).map Prod.snd = l.eraseIdx i := by
  have h := enumFrom_filter_bne_map_snd l 0 i
  simpa [List.enum] using h

end BoostGeo

namespace BoostGeo

/-- `find?` over a map by an id-preserving function. -/
lemma find?_map_id_preserving (g : Friend → Friend) (hg : ∀ f, (g f).id = f.id)
    (fs : List Friend) :
    (fs.map g).find? (fun f => f.id == 1) = (fs.find? (fun f => f.id == 1)).map g := by
  rw [List.find?_map]
  have hp : ((fun f : Friend => f.id == 1) ∘ g) = fun f : Friend => f.id == 1 := by
    funext f
    simp [Function.comp, hg]
  rw [hp]

/-- One tick moves Alice's coordinate by the step function `stepLoc`
(`aliceLoc` reads the first friend with id 1, and the tick gives every
friend with id 1 the location computed from that same first match). -/
lemma aliceLoc_tickFriends (fs : List Friend) (loc : Location)
    (h : aliceLoc fs = some loc) :
    aliceLoc (tickFriends fs) = some (stepLoc loc) := by
  cases hf : fs.find? (fun f => f.id == 1) with
  | none => simp [aliceLoc, hf] at h
  | some alice =>
    have halice : (alice.id == 1) = true := by simpa using List.find?_some hf
    have hloc : alice.location = loc := by simpa [aliceLoc, hf] using h
    have ht : tickFriends fs =
        fs.map (fun f => if f.id == 1 then { f with location := stepLoc alice.location } else f) := by
      unfold tickFriends
      rw [hf]
      rfl
    have hid : alice.id = 1 := by simpa using halice
    unfold aliceLoc
    rw [ht, find?_map_id_preserving _ (fun f => by
      by_cases hidf : (f.id == 1) = true <;> simp [hidf]), hf]
    simp [hid, hloc]

/-- The closing vertex of `alicePath` duplicates its first vertex, and
`findIndex` returns the first match, so on the six distinct coordinates the
step function advances the position index by one modulo 6. -/
lemma stepLoc_pathLoc : ∀ s, s < 6 → stepLoc (pathLoc s) = pathLoc ((s + 1) % 6) := by decide

/-- Pointwise relation between a friend before and after a tick: friends
with id other than 1 are untouched, and for id 1 every field except the
location is untouched. -/
def tickRel (f f2 : Friend) : Prop :=
  (f.id ≠ 1 → f2 = f) ∧
  (f.id = 1 → f2.id = f.id ∧ f2.name = f.name ∧ f2.avatar = f.avatar ∧
    f2.status = f.status ∧ f2.lastMessage = f.lastMessage ∧ f2.unread = f.unread)

lemma tickRel_self (f : Friend) : tickRel f f :=
  ⟨fun _ => rfl, fun _ => ⟨rfl, rfl, rfl, rfl, rfl, rfl⟩⟩

lemma tickRel_update (nl : Location) (f : Friend) :
    tickRel f (if f.id == 1 then { f with location := nl } else f) := by
  by_cases hid : f.id = 1
  · rw [if_pos (by simp [hid])]
    exact ⟨fun hc => absurd hid hc, fun _ => ⟨rfl, rfl, rfl, rfl, rfl, rfl⟩⟩
  · rw [if_neg (by simp [hid])]
    exact tickRel_self f

lemma forall₂_tickRel_map (nl : Location) (fs : List Friend) :
    List.Forall₂ tickRel fs
      (fs.map (fun f => if f.id == 1 then { f with location := nl } else f)) := by
  induction fs with
  | nil => exact List.Forall₂.nil
  | cons a t ih => exact List.Forall₂.cons (tickRel_update nl a) ih

/-- Every tick relates the friend list to its successor pointwise. -/
lemma tickFriends_rel (fs : List Friend) : List.Forall₂ tickRel fs (tickFriends fs) := by
  unfold tickFriends
  cases hf : fs.find? (fun f => f.id == 1) with
  | none => exact List.forall₂_same.mpr fun f _ => tickRel_self f
  | some alice => exact forall₂_tickRel_map _ fs

end BoostGeo

namespace BoostGeo

/-! ### Claim theorems -/

/-- Claim C1: when route requests are issued for waypoint sequences `G1`
and then `G2` (the second issued before the first one's response resolves),
the superseded `G1` response is never applied: whichever order the two
responses arrive in, the final route-alternative set is exactly the result
returned for the current sequence `G2`. -/
theorem supersededResponseNeverApplied (st0 : AppState) (G1 G2 : List (Rat × Rat))
    (r1 r2 : List RouteData) (h1 : 2 ≤ G1.length) (h2 : 2 ≤ G2.length) :
    (applyRouteResponse
        (applyRouteResponse (setWaypointsTo G2 (setWaypointsTo G1 st0))
          (setWaypointsTo G1 st0).gen r1)
        (setWaypointsTo G2 (setWaypointsTo G1 st0)).gen r2).routes = r2 ∧
    (applyRouteResponse
        (applyRouteResponse (setWaypointsTo G2 (setWaypointsTo G1 st0))
          (setWaypointsTo G2 (setWaypointsTo G1 st0)).gen r2)
        (setWaypointsTo G1 st0).gen r1).routes = r2 := by
  have hn1 : ¬ (G1.length < 2) := by omega
  have hn2 : ¬ (G2.length < 2) := by omega
  have hg : st0.gen + 1 ≠ st0.gen + 1 + 1 := by omega
  constructor
  · simp [setWaypointsTo, routeEffect, applyRouteResponse, hn1, hn2, hg]
  · simp [setWaypointsTo, routeEffect, applyRouteResponse, hn1, hn2, hg]

/-- Concrete instance of claim C1: `[A,B,C]` superseded by `[A,B]`; both
arrival orders leave exactly the `[A,B]` result. -/
theorem supersededResponseNeverApplied_witness :
    2 ≤ ([wpA, wpB, wpC] : List (Rat × Rat)).length ∧
    2 ≤ ([wpA, wpB] : List (Rat × Rat)).length ∧
    (applyRouteResponse
        (applyRouteResponse (setWaypointsTo [wpA, wpB] (setWaypointsTo [wpA, wpB, wpC] initState))
          (setWaypointsTo [wpA, wpB, wpC] initState).gen [demoRoute2])
        (setWaypointsTo [wpA, wpB] (setWaypointsTo [wpA, wpB, wpC] initState)).gen
        [demoRoute]).routes = [demoRoute] ∧
    (applyRouteResponse
        (applyRouteResponse (setWaypointsTo [wpA, wpB] (setWaypointsTo [wpA, wpB, wpC] initState))
          (setWaypointsTo [wpA, wpB] (setWaypointsTo [wpA, wpB, wpC] initState)).gen [demoRoute])
        (setWaypointsTo [wpA, wpB, wpC] initState).gen [demoRoute2]).routes = [demoRoute] :=
  ⟨by decide, by decide,
    (supersededResponseNeverApplied initState [wpA, wpB, wpC] [wpA, wpB]
      [demoRoute2] [demoRoute] (by decide) (by decide)).1,
    (supersededResponseNeverApplied initState [wpA, wpB, wpC] [wpA, wpB]
      [demoRoute2] [demoRoute] (by decide) (by decide)).2⟩

/-- Claim C8: a waypoint-sequence change to fewer than two entries clears
the alternative set synchronously, records no new in-flight request, and
`fetchRoutes` itself returns the empty list for any network outcome without
needing one. -/
theorem shortWaypointsNoRequest (st : AppState) (wps : List (Rat × Rat))
    (h : wps.length < 2) :
    (setWaypointsTo wps st).routes = [] ∧
    (setWaypointsTo wps st).inflight = st.inflight ∧
    (∀ o : FetchOutcome, fetchRoutes wps o = []) := by
  refine ⟨?_, ?_, fun o => ?_⟩
  · simp [setWaypointsTo, routeEffect, h]
  · simp [setWaypointsTo, routeEffect, h]
  · simp [fetchRoutes, h]

/-- Concrete instance of claim C8 at a one-waypoint sequence. -/
theorem shortWaypointsNoRequest_witness :
    ([wpA] : List (Rat × Rat)).length < 2 ∧
    (setWaypointsTo [wpA] initState).routes = [] ∧
    (setWaypointsTo [wpA] initState).inflight = initState.inflight ∧
    fetchRoutes [wpA] FetchOutcome.netError = [] :=
  ⟨by decide,
    (shortWaypointsNoRequest initState [wpA] (by decide)).1,
    (shortWaypointsNoRequest initState [wpA] (by decide)).2.1,
    (shortWaypointsNoRequest initState [wpA] (by decide)).2.2 FetchOutcome.netError⟩

/-- Claim C10: a simulator tick changes nothing in the session state except
friend locations, and on the friend list it relates every entry to its
successor by `tickRel`: entries with id other than 1 are untouched, and the
id-1 entry keeps every field except its location. -/
theorem tickFrameCondition (st : AppState) :
    (tickSim st).blips = st.blips ∧
    (tickSim st).waypoints = st.waypoints ∧
    (tickSim st).routes = st.routes ∧
    (tickSim st).selectedRouteIndex = st.selectedRouteIndex ∧
    (tickSim st).isLoadingRoute = st.isLoadingRoute ∧
    (tickSim st).selection = st.selection ∧
    (tickSim st).selectedWaypoint = st.selectedWaypoint ∧
    (tickSim st).selectedBlip = st.selectedBlip ∧
    (tickSim st).userLocation = st.userLocation ∧
    (tickSim st).isDrawing = st.isDrawing ∧
    (tickSim st).drawnPolygon = st.drawnPolygon ∧
    List.Forall₂ tickRel st.friends (tickSim st).friends :=
  ⟨rfl, rfl, rfl, rfl, rfl, rfl, rfl, rfl, rfl, rfl, rfl, tickFriends_rel st.friends⟩

/-- Concrete instance of claim C10 at the initial state. -/
theorem tickFrameCondition_witness :
    (tickSim initState).blips = initState.blips ∧
    (tickSim initState).waypoints = initState.waypoints ∧
    (tickSim initState).routes = initState.routes ∧
    (tickSim initState).selectedRouteIndex = initState.selectedRouteIndex ∧
    (tickSim initState).isLoadingRoute = initState.isLoadingRoute ∧
    (tickSim initState).selection = initState.selection ∧
    (tickSim initState).selectedWaypoint = initState.selectedWaypoint ∧
    (tickSim initState).selectedBlip = initState.selectedBlip ∧
    (tickSim initState).userLocation = initState.userLocation ∧
    (tickSim initState).isDrawing = initState.isDrawing ∧
    (tickSim initState).drawnPolygon = initState.drawnPolygon ∧
    List.Forall₂ tickRel initState.friends (tickSim initState).friends :=
  tickFrameCondition initState

end BoostGeo

namespace BoostGeo

/-- The blip present in the initial state. -/
def demoBlip : Blip :=
  { id := 1, longitude := mkRat (-12245) 100, latitude := mkRat 3777 100, text := "Cool graffiti" }

/-- Counterexample to claim C2 as stated: a surface click selects a point,
and a following blip-marker click leaves that point selection in place
while also selecting the blip, so two non-`None` selection variants are
active at once and the marker-click assignment did not discard the
previous selection. -/
theorem twoSelectionVariantsActive :
    (blipMarkerClick (handleMapClick initState wpC.1 wpC.2 false) demoBlip).selection =
      some ⟨wpC.1, wpC.2⟩ ∧
    (blipMarkerClick (handleMapClick initState wpC.1 wpC.2 false) demoBlip).selectedBlip =
      some demoBlip := by
  constructor
  · rfl
  · rfl

/-- Claim C2 as amended: a plain surface click (drawing off, no marker hit)
assigns the point selection and discards the waypoint and blip selections
wholesale; but the blip-marker and waypoint-marker click handlers only set
their own variant and leave the other two selection fields untouched, so a
marker click after a surface click leaves two variants active. -/
theorem selectionAssignmentBehavior (st : AppState) (lng lat : Rat) (b : Blip)
    (i : Nat) (wlng wlat : Rat) (h : st.isDrawing = false) :
    (handleMapClick st lng lat false).selection = some ⟨lng, lat⟩ ∧
    (handleMapClick st lng lat false).selectedWaypoint = none ∧
    (handleMapClick st lng lat false).selectedBlip = none ∧
    (blipMarkerClick st b).selectedBlip = some b ∧
    (blipMarkerClick st b).selection = st.selection ∧
    (blipMarkerClick st b).selectedWaypoint = st.selectedWaypoint ∧
    (waypointMarkerClick st i wlng wlat).selectedWaypoint = some ⟨i, wlng, wlat⟩ ∧
    (waypointMarkerClick st i wlng wlat).selection = st.selection ∧
    (waypointMarkerClick st i wlng wlat).selectedBlip = st.selectedBlip := by
  refine ⟨?_, ?_, ?_, rfl, rfl, rfl, rfl, rfl, rfl⟩ <;> simp [handleMapClick, h]

/-- Concrete instance of the amended claim C2 at the initial state. -/
theorem selectionAssignmentBehavior_witness :
    initState.isDrawing = false ∧
    (handleMapClick initState wpA.1 wpA.2 false).selection = some ⟨wpA.1, wpA.2⟩ ∧
    (handleMapClick initState wpA.1 wpA.2 false).selectedWaypoint = none ∧
    (handleMapClick initState wpA.1 wpA.2 false).selectedBlip = none ∧
    (blipMarkerClick initState demoBlip).selectedBlip = some demoBlip ∧
    (blipMarkerClick initState demoBlip).selection = initState.selection ∧
    (blipMarkerClick initState demoBlip).selectedWaypoint = initState.selectedWaypoint ∧
    (waypointMarkerClick initState 0 wpB.1 wpB.2).selectedWaypoint = some ⟨0, wpB.1, wpB.2⟩ ∧
    (waypointMarkerClick initState 0 wpB.1 wpB.2).selection = initState.selection ∧
    (waypointMarkerClick initState 0 wpB.1 wpB.2).selectedBlip = initState.selectedBlip :=
  ⟨by decide, selectionAssignmentBehavior initState wpA.1 wpA.2 demoBlip 0 wpB.1 wpB.2 (by decide)⟩

/-- A reachable state with three waypoints and waypoint 0 selected: three
surface clicks each followed by `addWaypoint`, then a click on waypoint
marker 0. -/
def preDeleteState : AppState :=
  waypointMarkerClick
    (addWaypoint (handleMapClick
      (addWaypoint (handleMapClick
        (addWaypoint (handleMapClick initState wpA.1 wpA.2 false))
        wpB.1 wpB.2 false))
      wpC.1 wpC.2 false))
    0 wpA.1 wpA.2

/-- Counterexample to claim C3 as stated: `deleteWaypoint 5` on a
three-waypoint state leaves the waypoint sequence unchanged but still
mutates the state (the waypoint selection is unconditionally cleared), and
no `InvalidIndex` failure exists anywhere in the handler. -/
theorem deleteWaypointOutOfRangeMutatesState :
    preDeleteState.waypoints.length = 3 ∧
    ¬ (5 < preDeleteState.waypoints.length) ∧
    preDeleteState.selectedWaypoint = some ⟨0, wpA.1, wpA.2⟩ ∧
    (deleteWaypoint preDeleteState 5).waypoints = preDeleteState.waypoints ∧
    (deleteWaypoint preDeleteState 5).selectedWaypoint = none ∧
    deleteWaypoint preDeleteState 5 ≠ preDeleteState := by
  refine ⟨by decide, by decide, by decide, by decide, by decide, by decide⟩

/-- Claim C3 as amended: an in-range `deleteWaypoint i` removes entry `i`
and shifts every later position down by one; an out-of-range index leaves
the waypoint sequence unchanged but no `InvalidIndex` is reported; and in
both cases the waypoint selection is unconditionally forced to `None`,
whatever position it referenced. -/
theorem deleteWaypointBehavior (st : AppState) (i : Nat) :
    (i < st.waypoints.length → (deleteWaypoint st i).waypoints = st.waypoints.eraseIdx i) ∧
    (st.waypoints.length ≤ i → (deleteWaypoint st i).waypoints = st.waypoints) ∧
    (deleteWaypoint st i).selectedWaypoint = none := by
  have hw : (deleteWaypoint st i).waypoints = st.waypoints.eraseIdx i := by
    unfold deleteWaypoint setWaypointsTo routeEffect
    split <;> simpa using enum_filter_bne_map_snd st.waypoints i
  have hsw : (deleteWaypoint st i).selectedWaypoint = none := by
    unfold deleteWaypoint setWaypointsTo routeEffect
    split <;> rfl
  refine ⟨fun _ => hw, fun hi => ?_, hsw⟩
  rw [hw, List.eraseIdx_eq_self.mpr hi]

/-- Concrete instance of the amended claim C3: deleting waypoint 1 of three
erases exactly position 1, and the waypoint selection is cleared. -/
theorem deleteWaypointBehavior_witness :
    1 < preDeleteState.waypoints.length ∧
    (deleteWaypoint preDeleteState 1).waypoints = preDeleteState.waypoints.eraseIdx 1 ∧
    (deleteWaypoint preDeleteState 1).selectedWaypoint = none :=
  ⟨by decide, (deleteWaypointBehavior preDeleteState 1).1 (by decide),
    (deleteWaypointBehavior preDeleteState 1).2.2⟩

/-- Counterexample to claim C4 as stated: toggling drawing on from `Off`
while a point selection is active leaves that selection in place — the
selection is not forced to `None`. -/
theorem toggleDrawingKeepsSelection :
    (toggleDrawing (handleMapClick initState wpC.1 wpC.2 false)).isDrawing = true ∧
    (toggleDrawing (handleMapClick initState wpC.1 wpC.2 false)).selection =
      some ⟨wpC.1, wpC.2⟩ := by
  constructor
  · rfl
  · rfl

/-- Claim C4 as amended: `toggleDrawing` from `Off` empties the waypoint
sequence and the drawn-area vertex sequence (and the route set through the
effect) but leaves the selection unchanged rather than forcing it to
`None`; from `On` it leaves the drawn-area vertex sequence intact. -/
theorem toggleDrawingBehavior (st : AppState) :
    (st.isDrawing = false →
      (toggleDrawing st).isDrawing = true ∧
      (toggleDrawing st).waypoints = [] ∧
      (toggleDrawing st).drawnPolygon = [] ∧
      (toggleDrawing st).routes = [] ∧
      (toggleDrawing st).selection = st.selection) ∧
    (st.isDrawing = true →
      (toggleDrawing st).isDrawing = false ∧
      (toggleDrawing st).drawnPolygon = st.drawnPolygon) := by
  constructor
  · intro h
    simp [toggleDrawing, setWaypointsTo, routeEffect, h]
  · intro h
    simp [toggleDrawing, h]

/-- Concrete instance of the amended claim C4 in both directions. -/
theorem toggleDrawingBehavior_witness :
    initState.isDrawing = false ∧
    (toggleDrawing initState).isDrawing = true ∧
    (toggleDrawing initState).waypoints = [] ∧
    (toggleDrawing initState).drawnPolygon = [] ∧
    (toggleDrawing initState).routes = [] ∧
    (toggleDrawing initState).selection = initState.selection ∧
    (toggleDrawing (toggleDrawing initState)).isDrawing = false ∧
    (toggleDrawing (toggleDrawing initState)).drawnPolygon =
      (toggleDrawing initState).drawnPolygon :=
  ⟨by decide,
    ((toggleDrawingBehavior initState).1 (by decide)).1,
    ((toggleDrawingBehavior initState).1 (by decide)).2.1,
    ((toggleDrawingBehavior initState).1 (by decide)).2.2.1,
    ((toggleDrawingBehavior initState).1 (by decide)).2.2.2.1,
    ((toggleDrawingBehavior initState).1 (by decide)).2.2.2.2,
    ((toggleDrawingBehavior (toggleDrawing initState)).2 (by decide)).1,
    ((toggleDrawingBehavior (toggleDrawing initState)).2 (by decide)).2⟩

end BoostGeo

namespace BoostGeo

/-- Counterexample to claim C5 as stated: in the `src/src/App.tsx` variant,
a failed fetch (thrown network error) yields the waypoints themselves — a
straight line between them — rather than the empty set. -/
theorem fetchRouteStraightLineFallback :
    fetchRoute [wpA, wpB] FetchOutcome.netError = [wpA, wpB] ∧
    [wpA, wpB] ≠ ([] : List (Rat × Rat)) := by
  constructor
  · rfl
  · decide

/-- Claim C5 as amended: in the multi-alternative coordinator
(`fetchRoutes` of `src/unnamed/part_000`), every failure — network error,
non-success HTTP status, absent routes field or empty routes list — yields
the empty alternative set by an ordinary return (never an exception); but
the `fetchRoute` variant of `src/src/App.tsx` returns the waypoints
themselves (a straight-line fallback) on network and HTTP failures,
yielding the empty list only when the response carries no routes. -/
theorem fetchFailureBehavior (wps : List (Rat × Rat)) (o : FetchOutcome)
    (hf : o.isFailure = true) (h2 : 2 ≤ wps.length) :
    fetchRoutes wps o = [] ∧
    fetchRoute wps FetchOutcome.netError = wps ∧
    fetchRoute wps (FetchOutcome.httpError 500) = wps ∧
    fetchRoute wps (FetchOutcome.ok none) = [] := by
  have hn : ¬ (wps.length < 2) := by omega
  refine ⟨?_, ?_, ?_, ?_⟩
  · cases o with
    | netError => simp [fetchRoutes]
    | httpError s => simp [fetchRoutes]
    | ok rf =>
      cases rf with
      | none => simp [fetchRoutes]
      | some rs =>
        have hrs : rs = [] := by
          simpa [FetchOutcome.isFailure, List.isEmpty_iff] using hf
        subst hrs
        simp [fetchRoutes]
  · simp [fetchRoute, hn]
  · simp [fetchRoute, hn]
  · simp [fetchRoute, hn]

/-- Concrete instance of the amended claim C5. -/
theorem fetchFailureBehavior_witness :
    (FetchOutcome.httpError 502).isFailure = true ∧
    2 ≤ ([wpA, wpB] : List (Rat × Rat)).length ∧
    fetchRoutes [wpA, wpB] (FetchOutcome.httpError 502) = [] ∧
    fetchRoute [wpA, wpB] FetchOutcome.netError = [wpA, wpB] ∧
    fetchRoute [wpA, wpB] (FetchOutcome.httpError 500) = [wpA, wpB] ∧
    fetchRoute [wpA, wpB] (FetchOutcome.ok none) = [] :=
  ⟨by decide, by decide,
    (fetchFailureBehavior [wpA, wpB] (FetchOutcome.httpError 502) (by decide) (by decide)).1,
    (fetchFailureBehavior [wpA, wpB] (FetchOutcome.httpError 502) (by decide) (by decide)).2.1,
    (fetchFailureBehavior [wpA, wpB] (FetchOutcome.httpError 502) (by decide) (by decide)).2.2.1,
    (fetchFailureBehavior [wpA, wpB] (FetchOutcome.httpError 502) (by decide) (by decide)).2.2.2⟩

/-- Counterexample to claim C6 as stated: Alice starts at path index 0 and
the path has length `L = 7`, but after exactly 7 ticks her coordinate is
the path entry at index 1, not the entry at `(0 + 7) mod 7 = 0` — because
the closing vertex of `alicePath` duplicates the first vertex and the tick
recovers the index with a first-match coordinate search. -/
theorem tickSevenNotBackToStart :
    aliceLoc initialFriends = some (pathLoc 0) ∧
    alicePath.length = 7 ∧
    aliceLoc (tickN 7 initialFriends) = some (pathLoc 1) ∧
    pathLoc 1 ≠ pathLoc ((0 + 7) % alicePath.length) := by
  refine ⟨by decide, by decide, by decide, by decide⟩

/-- Claim C6 as amended: on the six distinct coordinates of `alicePath`
(the closing seventh vertex repeats the first), the simulator is
deterministic with period 6: starting from path index `s < 6`, after
exactly `N` ticks Alice's coordinate is the path entry at index
`(s + N) mod 6`. -/
theorem tickAdvancesModuloSix (fs : List Friend) (s N : Nat) (hs : s < 6)
    (h : aliceLoc fs = some (pathLoc s)) :
    aliceLoc (tickN N fs) = some (pathLoc ((s + N) % 6)) := by
  induction N generalizing fs s with
  | zero =>
    simpa [tickN, Nat.mod_eq_of_lt hs] using h
  | succ n ih =>
    have h1 := aliceLoc_tickFriends fs (pathLoc s) h
    rw [stepLoc_pathLoc s hs] at h1
    have h2 := ih (tickFriends fs) ((s + 1) % 6) (Nat.mod_lt _ (by omega)) h1
    have h3 : tickN (n + 1) fs = tickN n (tickFriends fs) := rfl
    have h4 : ((s + 1) % 6 + n) % 6 = (s + (n + 1)) % 6 := by omega
    rw [h3, h2, h4]

/-- Concrete instance of the amended claim C6: nine ticks from index 0 land
on index `9 mod 6 = 3`. -/
theorem tickAdvancesModuloSix_witness :
    (0 : Nat) < 6 ∧
    aliceLoc initialFriends = some (pathLoc 0) ∧
    aliceLoc (tickN 9 initialFriends) = some (pathLoc ((0 + 9) % 6)) :=
  ⟨by decide, by decide, tickAdvancesModuloSix initialFriends 0 9 (by decide) (by decide)⟩

/-- A run violating the active-route-index invariant: fetch three
alternatives, select index 2, then shrink the waypoint sequence below two
entries — the synchronous clear empties the alternatives without resetting
the index. -/
def staleIndexRun : AppState :=
  setWaypointsTo [wpA]
    (selectRouteClick
      (applyRouteResponse (setWaypointsTo [wpA, wpB] initState)
        (setWaypointsTo [wpA, wpB] initState).gen
        [demoRoute, demoRoute2, demoRoute3]) 2)

/-- Counterexample to claim C7 as stated: after the synchronous clear the
alternative set is empty but the active route index is still 2, violating
`0 ≤ index < max(1, len(alternatives))`. -/
theorem indexInvariantViolatedAfterClear :
    staleIndexRun.routes = [] ∧
    staleIndexRun.selectedRouteIndex = 2 ∧
    ¬ (staleIndexRun.selectedRouteIndex < max 1 staleIndexRun.routes.length) := by
  refine ⟨by decide, by decide, by decide⟩

/-- Claim C7 as amended: applying a response for the current generation
(successful or failure-driven, i.e. any `d` including `[]`) resets the
active route index to 0 and re-establishes the bound
`index < max(1, len(alternatives))`; but the synchronous clear performed
when the waypoint sequence shrinks below two entries empties the
alternative set while leaving the index unchanged, so it is not a reset
point and can leave the invariant violated. -/
theorem responseApplicationResetsIndex (st : AppState) (d : List RouteData)
    (wps : List (Rat × Rat)) (h2 : wps.length < 2) :
    (applyRouteResponse st st.gen d).selectedRouteIndex = 0 ∧
    (applyRouteResponse st st.gen d).selectedRouteIndex <
      max 1 (applyRouteResponse st st.gen d).routes.length ∧
    (setWaypointsTo wps st).routes = [] ∧
    (setWaypointsTo wps st).selectedRouteIndex = st.selectedRouteIndex := by
  have h0 : (applyRouteResponse st st.gen d).selectedRouteIndex = 0 := by
    simp [applyRouteResponse]
  refine ⟨h0, ?_, ?_, ?_⟩
  · rw [h0]
    exact Nat.lt_of_lt_of_le Nat.zero_lt_one (Nat.le_max_left 1 _)
  · simp [setWaypointsTo, routeEffect, h2]
  · simp [setWaypointsTo, routeEffect, h2]

/-- Concrete instance of the amended claim C7. -/
theorem responseApplicationResetsIndex_witness :
    ([wpA] : List (Rat × Rat)).length < 2 ∧
    (applyRouteResponse initState initState.gen [demoRoute]).selectedRouteIndex = 0 ∧
    (applyRouteResponse initState initState.gen [demoRoute]).selectedRouteIndex <
      max 1 (applyRouteResponse initState initState.gen [demoRoute]).routes.length ∧
    (setWaypointsTo [wpA] initState).routes = [] ∧
    (setWaypointsTo [wpA] initState).selectedRouteIndex = initState.selectedRouteIndex :=
  ⟨by decide,
    (responseApplicationResetsIndex initState [demoRoute] [wpA] (by decide)).1,
    (responseApplicationResetsIndex initState [demoRoute] [wpA] (by decide)).2.1,
    (responseApplicationResetsIndex initState [demoRoute] [wpA] (by decide)).2.2.1,
    (responseApplicationResetsIndex initState [demoRoute] [wpA] (by decide)).2.2.2⟩

/-- A run in which a request goes out for `[A,B]`, is superseded by the
one-waypoint sequence `[A]`, and then resolves: the stale response is
discarded, no request remains outstanding, yet the loading flag stays
true. -/
def stuckLoadingRun : AppState :=
  applyRouteResponse (setWaypointsTo [wpA] (setWaypointsTo [wpA, wpB] initState))
    (setWaypointsTo [wpA, wpB] initState).gen []

/-- Counterexample to claim C9 as stated: after a supersession that shrinks
the waypoint sequence below two entries, no request is outstanding (the
in-flight set is empty) but `isLoadingRoute` is still true — the flag is
not true *exactly* while a current-generation request is outstanding. -/
theorem loadingFlagStuckTrue :
    stuckLoadingRun.isLoadingRoute = true ∧
    stuckLoadingRun.inflight = [] := by
  constructor
  · decide
  · decide

/-- Claim C9 as amended: `isLoadingRoute` becomes true when a request is
issued and becomes false when a response for the current generation is
applied (so a successful fetch drives it true then false); but when the
request is superseded by a waypoint change to fewer than two entries, the
flag stays true both at the supersession and after the stale response is
discarded, even though no request for the current generation remains
outstanding. -/
theorem loadingFlagBehavior (st : AppState) (wps wps2 : List (Rat × Rat))
    (d : List RouteData) (h1 : 2 ≤ wps.length) (h2 : wps2.length < 2) :
    (setWaypointsTo wps st).isLoadingRoute = true ∧
    (applyRouteResponse (setWaypointsTo wps st)
      (setWaypointsTo wps st).gen d).isLoadingRoute = false ∧
    (setWaypointsTo wps2 (setWaypointsTo wps st)).isLoadingRoute = true ∧
    (applyRouteResponse (setWaypointsTo wps2 (setWaypointsTo wps st))
      (setWaypointsTo wps st).gen d).isLoadingRoute = true := by
  have hn1 : ¬ (wps.length < 2) := by omega
  have hg : st.gen + 1 ≠ st.gen + 1 + 1 := by omega
  refine ⟨?_, ?_, ?_, ?_⟩ <;>
    simp [setWaypointsTo, routeEffect, applyRouteResponse, hn1, h2, hg]

/-- Concrete instance of the amended claim C9. -/
theorem loadingFlagBehavior_witness :
    2 ≤ ([wpA, wpB] : List (Rat × Rat)).length ∧
    ([wpA] : List (Rat × Rat)).length < 2 ∧
    (setWaypointsTo [wpA, wpB] initState).isLoadingRoute = true ∧
    (applyRouteResponse (setWaypointsTo [wpA, wpB] initState)
      (setWaypointsTo [wpA, wpB] initState).gen [demoRoute]).isLoadingRoute = false ∧
    (setWaypointsTo [wpA] (setWaypointsTo [wpA, wpB] initState)).isLoadingRoute = true ∧
    (applyRouteResponse (setWaypointsTo [wpA] (setWaypointsTo [wpA, wpB] initState))
      (setWaypointsTo [wpA, wpB] initState).gen [demoRoute]).isLoadingRoute = true :=
  ⟨by decide, by decide,
    (loadingFlagBehavior initState [wpA, wpB] [wpA] [demoRoute] (by decide) (by decide)).1,
    (loadingFlagBehavior initState [wpA, wpB] [wpA] [demoRoute] (by decide) (by decide)).2.1,
    (loadingFlagBehavior initState [wpA, wpB] [wpA] [demoRoute] (by decide) (by decide)).2.2.1,
    (loadingFlagBehavior initState [wpA, wpB] [wpA] [demoRoute] (by decide) (by decide)).2.2.2⟩

end BoostGeo
